import Mathlib

/-!
Shallow embedding of `src/modules/BinanceArb.py` (class `BinanceArbBot`),
a Binance spot / coin-margined-futures basis arbitrage bot.  Prices and
quantities are modelled as rationals; Python `int(...)` truncation and
`round(...)` banker rounding are made explicit; exchange calls become
oracle inputs and the observable calls are recorded as `ArbAction` traces.
-/

/-- Configuration fields of `BinanceArbBot.__init__`.  The `multipler`
dictionary (source spelling) maps a coin symbol to its contract multiplier;
the bot only ever reads `multipler[coin]`. -/
structure BinanceArbBot where
  coin : String
  future_date : String
  coin_precision : ℤ
  slippage : ℚ
  spot_fee_rate : ℚ
  contract_fee_rate : ℚ
  multipler : String → ℚ
  amount : ℚ
  num_maximum : ℕ
  threshold : ℚ
  max_trial : ℕ

/-- Source line 35: spot symbol type1, the coin followed by USDT. -/
def BinanceArbBot.spot_symbol_type1 (b : BinanceArbBot) : String :=
  b.coin ++ "USDT"

/-- Source line 35: spot symbol type2, the coin followed by a slash and USDT. -/
def BinanceArbBot.spot_symbol_type2 (b : BinanceArbBot) : String :=
  b.coin ++ "/USDT"

/-- Source line 36: future symbol type1, the coin followed by USD_ and the date. -/
def BinanceArbBot.future_symbol_type1 (b : BinanceArbBot) : String :=
  b.coin ++ "USD_" ++ b.future_date

/-- Python `int(x)`: truncation toward zero. -/
def pyint (q : ℚ) : ℤ :=
  if q < 0 then ⌈q⌉ else ⌊q⌋

/-- Python `round(x)` to an integer: round half to even. -/
def pyround_int (q : ℚ) : ℤ :=
  if q - ⌊q⌋ < 1/2 then ⌊q⌋
  else if q - ⌊q⌋ > 1/2 then ⌊q⌋ + 1
  else if ⌊q⌋ % 2 = 0 then ⌊q⌋ else ⌊q⌋ + 1

/-- Python `round(x, ndigits)`. -/
def pyround (q : ℚ) (ndigits : ℤ) : ℚ :=
  (pyround_int (q * (10 : ℚ) ^ ndigits) : ℚ) / (10 : ℚ) ^ ndigits

/-- Source line 159 and 255: `r = coin_price / spot_price - 1`. -/
def spread_r (coin_px spot_px : ℚ) : ℚ :=
  coin_px / spot_px - 1

/-- Source line 164: the opening loop executes a cycle exactly when the
branch `if r < self.threshold` is NOT taken. -/
def open_poll_executes (r threshold : ℚ) : Bool :=
  if r < threshold then false else true

/-- Source line 260: the closing loop executes a cycle exactly when the
branch `if r > self.threshold` is NOT taken. -/
def close_poll_executes (r threshold : ℚ) : Bool :=
  if r > threshold then false else true

/-- Source line 170: `contract_num = int(self.amount / self.multipler[self.coin])`. -/
def open_contract_num (amount multipler_coin : ℚ) : ℤ :=
  pyint (amount / multipler_coin)

/-- Source line 171: `contract_coin_num = contract_num * multipler / coin_bid1`. -/
def open_contract_coin_num (amount multipler_coin coin_bid1 : ℚ) : ℚ :=
  (open_contract_num amount multipler_coin : ℚ) * multipler_coin / coin_bid1

/-- Source line 172: `contract_fee = contract_coin_num * self.contract_fee_rate`. -/
def open_contract_fee (amount multipler_coin coin_bid1 contract_fee_rate : ℚ) : ℚ :=
  open_contract_coin_num amount multipler_coin coin_bid1 * contract_fee_rate

/-- Source line 173: `spot_amount = contract_coin_num / (1 - spot_fee_rate) + contract_fee`. -/
def open_spot_amount (amount multipler_coin coin_bid1 contract_fee_rate spot_fee_rate : ℚ) : ℚ :=
  open_contract_coin_num amount multipler_coin coin_bid1 / (1 - spot_fee_rate)
    + open_contract_fee amount multipler_coin coin_bid1 contract_fee_rate

/-- Source line 266: `contract_num = int(coin_bid1 * self.amount / self.multipler[self.coin])`. -/
def close_contract_num (coin_bid1 amount multipler_coin : ℚ) : ℤ :=
  pyint (coin_bid1 * amount / multipler_coin)

/-- Source line 267: `contract_coin_num = contract_num * multipler / coin_bid1`. -/
def close_contract_coin_num (coin_bid1 amount multipler_coin : ℚ) : ℚ :=
  (close_contract_num coin_bid1 amount multipler_coin : ℚ) * multipler_coin / coin_bid1

/-- Source line 268: `contract_fee = contract_coin_num * self.contract_fee_rate`. -/
def close_contract_fee (coin_bid1 amount multipler_coin contract_fee_rate : ℚ) : ℚ :=
  close_contract_coin_num coin_bid1 amount multipler_coin * contract_fee_rate

/-- Source line 269: `spot_amount = contract_coin_num - contract_fee`. -/
def close_spot_amount (coin_bid1 amount multipler_coin contract_fee_rate : ℚ) : ℚ :=
  close_contract_coin_num coin_bid1 amount multipler_coin
    - close_contract_fee coin_bid1 amount multipler_coin contract_fee_rate

example : open_contract_num 1000 100 = 10 := by norm_num [open_contract_num, pyint]
example : close_contract_num 2 1000 100 = 20 := by norm_num [close_contract_num, pyint]

/-- Observable exchange-gateway calls issued during a trading cycle, in
program order.  Oracle results (ticker prices, fetched balances) appear as
recorded values inside the actions that consume them. -/
inductive ArbAction where
  | spotOrder (symbol direction : String) (price amount : ℚ)
  | futuresOrder (symbol direction : String) (price : ℚ) (contracts : ℤ)
  | sleep (seconds : ℕ)
  | fetchBalance (asset : String) (result : ℚ)
  | transfer (currency : String) (amount : ℚ) (from_account to_account : String)
  deriving DecidableEq

/-- Whether an action is a spot limit order (a `binance_spot_place_order` call). -/
def ArbAction.isSpotOrder : ArbAction → Bool
  | .spotOrder _ _ _ _ => true
  | _ => false

/-- Whether an action is a futures limit order (a `binance_future_place_order` call). -/
def ArbAction.isFuturesOrder : ArbAction → Bool
  | .futuresOrder _ _ _ _ => true
  | _ => false

/-- Whether an action is a `fetch_balance` call. -/
def ArbAction.isFetchBalance : ArbAction → Bool
  | .fetchBalance _ _ => true
  | _ => false

/-- Whether an action is a sub-account transfer (a `binance_account_transfer` call). -/
def ArbAction.isTransfer : ArbAction → Bool
  | .transfer _ _ _ _ => true
  | _ => false

/-- One triggered opening cycle: the `else` branch of `open_position`
(source lines 167 to 218).  Oracle inputs: `spot_ask1` and `coin_bid1` from
the two ticker calls of this poll, and `post_balance`, the free balance of
`self.coin` returned by the `fetch_balance()` call made after the two
orders and the 2-second sleep (lines 200 to 201). -/
def open_cycle (b : BinanceArbBot) (spot_ask1 coin_bid1 post_balance : ℚ) : List ArbAction :=
  let m := b.multipler b.coin
  [ ArbAction.spotOrder b.spot_symbol_type2 "long"
      (spot_ask1 * (1 + b.slippage))
      (open_spot_amount b.amount m coin_bid1 b.contract_fee_rate b.spot_fee_rate),
    ArbAction.futuresOrder b.future_symbol_type1 "open_short"
      (pyround (coin_bid1 * (1 - b.slippage)) b.coin_precision)
      (open_contract_num b.amount m),
    ArbAction.sleep 2,
    ArbAction.fetchBalance b.coin post_balance,
    ArbAction.transfer b.coin post_balance "spot" "coin-margin" ]

/-- One triggered closing cycle: the `else` branch of `close_position_utils`
(source lines 263 to 311).  Oracle inputs: `spot_ask1` (actually the spot
bidPrice, source line 248) and `coin_bid1` (actually the futures askPrice,
source line 251) from this poll, and `num`, the free `self.coin` balance
that was fetched once at `close_position_utils` entry (lines 236 to 237),
before the loop; the transfer at line 302 reuses that `num`, and no balance
fetch happens inside the cycle. -/
def close_cycle (b : BinanceArbBot) (spot_ask1 coin_bid1 num : ℚ) : List ArbAction :=
  let m := b.multipler b.coin
  [ ArbAction.futuresOrder b.future_symbol_type1 "close_short"
      (pyround (coin_bid1 * (1 + b.slippage)) b.coin_precision)
      (close_contract_num coin_bid1 b.amount m),
    ArbAction.spotOrder b.spot_symbol_type2 "short"
      (spot_ask1 * (1 - b.slippage))
      (close_spot_amount coin_bid1 b.amount m b.contract_fee_rate),
    ArbAction.sleep 2,
    ArbAction.transfer b.coin num "coin-margin" "spot" ]

/-- The trace of `close_position_utils` from its entry through the end of
its first triggered cycle: the two `fetch_balance()` calls at lines 231 and
236 (USDT, then the coin), then the cycle.  `coin_balance` is the value the
second fetch returns; it is the `num` that the transfer of the cycle reuses. -/
def close_utils_first_cycle (b : BinanceArbBot)
    (usdt_balance coin_balance spot_ask1 coin_bid1 : ℚ) : List ArbAction :=
  ArbAction.fetchBalance "USDT" usdt_balance ::
  ArbAction.fetchBalance b.coin coin_balance ::
  close_cycle b spot_ask1 coin_bid1 coin_balance

/-- Outcome of one `retry_wrapper` call (source lines 39 to 58):
the value returned (if any attempt succeeded), how many times `func` was
invoked, how many alerts `send_dd_msg` emitted, and whether `exit()` ran. -/
structure RetryOutcome (α : Type) where
  result : Option α
  attempts : ℕ
  alerts : ℕ
  exited : Bool
  deriving DecidableEq

/-- The `for _ in range(self.max_trial)` loop of `retry_wrapper`.  `op k`
is the outcome of the attempt made when `k` attempts have already been
made: `some v` if `func(**params)` returns `v`, `none` if it raises any
`Exception`.  When the loop finishes without returning, the `for`-`else`
branch (lines 54 to 58) logs critically, sends exactly one alert and, when
`is_exit` holds, calls `exit()`. -/
def retry_run {α : Type} (op : ℕ → Option α) (is_exit : Bool) :
    ℕ → ℕ → RetryOutcome α
  | made, 0 => ⟨none, made, 1, is_exit⟩
  | made, remaining + 1 =>
    match op made with
    | some v => ⟨some v, made + 1, 0, false⟩
    | none => retry_run op is_exit (made + 1) remaining

/-- `retry_wrapper(func, params, act_name, sleep_seconds, is_exit)`:
run the attempt loop with `max_trial` trials and no attempts made yet. -/
def retry_wrapper {α : Type} (max_trial : ℕ) (is_exit : Bool)
    (op : ℕ → Option α) : RetryOutcome α :=
  retry_run op is_exit 0 max_trial

/-- Values stored in a keyword-parameter dictionary. -/
inductive PVal where
  | str (s : String)
  | num (q : ℚ)
  | int (n : ℤ)
  deriving DecidableEq

/-- A Python keyword dictionary, as an association list with distinct keys
in practice.  Source `params.keys()` membership test. -/
def hasKey (params : List (String × PVal)) (k : String) : Bool :=
  (params.map Prod.fst).contains k

/-- Reading a field of the dictionary: `params[k]`. -/
def getField (params : List (String × PVal)) (k : String) : Option PVal :=
  match params with
  | [] => none
  | kv :: rest => if kv.1 = k then some kv.2 else getField rest k

/-- The per-entry effect of the timestamp assignment, line 46,
on an association-list dictionary: only the `timestamp` entry changes. -/
def stampMap (now_s : ℤ) : (String × PVal) → (String × PVal) :=
  fun kv => if kv.1 = "timestamp" then (kv.1, PVal.int (now_s * 1000)) else kv

/-- Source lines 45 to 46: before an attempt, if the dictionary has a
`timestamp` key, overwrite it with `int(time.time()) * 1000`; a dictionary
without the key is left alone.  `now_s` is `int(time.time())` at this
attempt. -/
def set_timestamp (now_s : ℤ) (params : List (String × PVal)) :
    List (String × PVal) :=
  if hasKey params "timestamp" then params.map (stampMap now_s)
  else params

/-- The parameter dictionary as `retry_wrapper` leaves it after `k`
attempts have started, where `clock j` is `int(time.time())` at the start
of attempt `j`. -/
def retry_params_after (clock : ℕ → ℤ) (params : List (String × PVal)) :
    ℕ → List (String × PVal)
  | 0 => params
  | k + 1 => set_timestamp (clock k) (retry_params_after clock params k)

/-- Source lines 69 to 74 of `binance_spot_place_order`: the `direction`
dispatch; any value other than `long` or `short` raises a `ValueError`. -/
def spot_order_side (direction : String) : Except String String :=
  if direction = "long" then Except.ok "buy"
  else if direction = "short" then Except.ok "sell"
  else Except.error "Parameter direction supports long or short only"

/-- Source lines 98 to 103 of `binance_future_place_order`: the `direction`
to `side` mapping; any other value raises. -/
def future_order_side (direction : String) : Except String String :=
  if direction = "open_short" then Except.ok "SELL"
  else if direction = "close_short" then Except.ok "BUY"
  else Except.error "direction only supports open_short and close_short"

/-- Source lines 128 to 133 of `binance_account_transfer`: the account-pair
dispatch; any unrecognized pair raises a `ValueError`. -/
def transfer_type (from_account to_account : String) : Except String String :=
  if from_account = "spot" ∧ to_account = "coin-margin" then
    Except.ok "MAIN_CMFUTURE"
  else if from_account = "coin-margin" ∧ to_account = "spot" then
    Except.ok "CMFUTURE_MAIN"
  else Except.error "Cannot recognize parameters for User Universal Transfer"

/-- An operation handed to `retry_wrapper` that calls
`binance_spot_place_order` with a fixed `direction`: it raises (returns
`none`) on every attempt exactly when the direction dispatch raises. -/
def spot_order_op (direction : String) : ℕ → Option String :=
  fun _ => (spot_order_side direction).toOption

/-- How one `close_position_utils()` call can end, as seen by the
supervisor `close_position`: `raised` is an ordinary `Exception`, caught by
the `except Exception` clause (line 327); `exited` is the `SystemExit`
raised by `exit()` (line 321, or line 58 inside `retry_wrapper` when
`is_exit` holds), which `except Exception` does not catch.  The function
body is an infinite loop, so it never returns normally. -/
inductive UtilsOutcome where
  | raised
  | exited
  deriving DecidableEq

/-- The supervisor `close_position` (source lines 323 to 330) over a script
of successive `close_position_utils()` outcomes: returns how many times the
closing loop was restarted and whether the process terminated.  On
`raised`, log critically, sleep, loop again (one restart); on `exited`, the
`SystemExit` propagates and the process ends.  An empty script means the
loop is still running. -/
def close_position_supervisor : List UtilsOutcome → ℕ × Bool
  | [] => (0, false)
  | UtilsOutcome.exited :: _ => (0, true)
  | UtilsOutcome.raised :: rest =>
    ((close_position_supervisor rest).1 + 1, (close_position_supervisor rest).2)

/-- Source line 244: `now_execute_num = 0` at every `close_position_utils`
entry, so each supervisor restart re-enters the loop with the counter at
this value. -/
def close_utils_entry_counter : ℕ := 0

/-- One poll of the closing loop acting on the execution counter: source
lines 260 to 308; the counter is unchanged when `r > threshold`, and
incremented once when a cycle runs. -/
def close_loop_step (threshold : ℚ) (n : ℕ) (r : ℚ) : ℕ :=
  if r > threshold then n else n + 1

/-- The closing loop of `close_position_utils` over a finite script of
spread observations: after each poll, `if now_execute_num >=
self.num_maximum` (line 318) calls `exit()`, ending the process with a
`SystemExit`; otherwise the loop polls again.  Returns `some .exited` when
the loop exits that way within the script, `none` when the script runs out
first. -/
def close_loop_outcome (threshold : ℚ) (num_maximum : ℕ) :
    ℕ → List ℚ → Option UtilsOutcome
  | _, [] => none
  | n, r :: rs =>
    let n2 := close_loop_step threshold n r
    if num_maximum ≤ n2 then some UtilsOutcome.exited
    else close_loop_outcome threshold num_maximum n2 rs

/-- The futures order strictly precedes the spot order in a trace. -/
def futures_before_spot (tr : List ArbAction) : Prop :=
  tr.findIdx ArbAction.isFuturesOrder < tr.findIdx ArbAction.isSpotOrder

/-- The spot order strictly precedes the futures order in a trace. -/
def spot_before_futures (tr : List ArbAction) : Prop :=
  tr.findIdx ArbAction.isSpotOrder < tr.findIdx ArbAction.isFuturesOrder

/-- A concrete bot configuration used to evaluate the cycle traces:
BTC with the June 2021 quarterly contract, multiplier 100 USD per
contract, 1000 USD notional. -/
def sampleBot : BinanceArbBot where
  coin := "BTC"
  future_date := "210625"
  coin_precision := 1
  slippage := 1/100
  spot_fee_rate := 1/1000
  contract_fee_rate := 1/2000
  multipler := fun _ => 100
  amount := 1000
  num_maximum := 1
  threshold := 1/100
  max_trial := 5

/-- Helper: in the opening cycle the spot order is the first action and the
futures order the second. -/
theorem open_cycle_order_indices (b : BinanceArbBot) (sa cb pb : ℚ) :
    (open_cycle b sa cb pb).findIdx ArbAction.isSpotOrder = 0
    ∧ (open_cycle b sa cb pb).findIdx ArbAction.isFuturesOrder = 1 := by
  constructor <;>
    simp [open_cycle, List.findIdx_cons, ArbAction.isSpotOrder, ArbAction.isFuturesOrder]

/-- Helper: in the closing cycle the futures order is the first action and
the spot order the second. -/
theorem close_cycle_order_indices (b : BinanceArbBot) (sa cb n : ℚ) :
    (close_cycle b sa cb n).findIdx ArbAction.isFuturesOrder = 0
    ∧ (close_cycle b sa cb n).findIdx ArbAction.isSpotOrder = 1 := by
  constructor <;>
    simp [close_cycle, List.findIdx_cons, ArbAction.isSpotOrder, ArbAction.isFuturesOrder]

/-- C1 counterexample: in a concrete opening cycle the futures order does
NOT precede the spot order, refuting the claim that in every execution
cycle of either phase the futures order is placed first. -/
theorem open_cycle_spot_first_counterexample :
    ¬ futures_before_spot (open_cycle sampleBot 100 101 3) := by
  have h := open_cycle_order_indices sampleBot 100 101 3
  simp [futures_before_spot, h.1, h.2]

/-- C1 amended: the closing cycle places the futures order (side BUY via
direction close_short, positionSide SHORT) before the spot order, but the
opening cycle places the spot order before the futures order (side SELL
via direction open_short). -/
theorem order_sequence_per_phase (b : BinanceArbBot) (sa cb pb n : ℚ) :
    spot_before_futures (open_cycle b sa cb pb)
    ∧ futures_before_spot (close_cycle b sa cb n)
    ∧ future_order_side "open_short" = Except.ok "SELL"
    ∧ future_order_side "close_short" = Except.ok "BUY" := by
  have h1 := open_cycle_order_indices b sa cb pb
  have h2 := close_cycle_order_indices b sa cb n
  refine ⟨?_, ?_, rfl, rfl⟩
  · simp [spot_before_futures, h1.1, h1.2]
  · simp [futures_before_spot, h2.1, h2.2]

/-- C5: the opening loop executes a cycle on a poll iff the spread reaches
the threshold, and the closing loop executes iff the spread has fallen to
the threshold; otherwise the loop just polls again. -/
theorem poll_trigger_iff (r threshold : ℚ) :
    (open_poll_executes r threshold = true ↔ threshold ≤ r)
    ∧ (close_poll_executes r threshold = true ↔ r ≤ threshold) := by
  constructor
  · simp [open_poll_executes, not_lt]
  · simp [close_poll_executes, not_lt]

/-- Helper: Python truncation agrees with floor on non-negative rationals. -/
theorem pyint_eq_floor_of_nonneg (q : ℚ) (h : 0 ≤ q) : pyint q = ⌊q⌋ := by
  simp [pyint, not_lt.mpr h]

/-- C6: the opening sizer computes `contract_num = floor(amount / m)`,
`contract_coin_num = contract_num * m / p_f`, `contract_fee =
contract_coin_num * f_f`, and `spot_amount = contract_coin_num / (1 - f_s)
+ contract_fee`; in particular amount 1000 with multiplier 100 gives 10
contracts. -/
theorem open_sizer_formulas (amount m p_f f_s f_f : ℚ)
    (h0 : 0 ≤ amount) (h1 : 0 < m) :
    open_contract_num amount m = ⌊amount / m⌋
    ∧ open_contract_coin_num amount m p_f = (open_contract_num amount m : ℚ) * m / p_f
    ∧ open_contract_fee amount m p_f f_f = open_contract_coin_num amount m p_f * f_f
    ∧ open_spot_amount amount m p_f f_f f_s =
        open_contract_coin_num amount m p_f / (1 - f_s)
          + open_contract_fee amount m p_f f_f
    ∧ open_contract_num 1000 100 = 10 := by
  refine ⟨?_, rfl, rfl, rfl, ?_⟩
  · exact pyint_eq_floor_of_nonneg _ (div_nonneg h0 h1.le)
  · norm_num [open_contract_num, pyint]

/-- C6 witness: the sizer formulas at amount 1000, m 100, p_f 50000,
f_s 1/1000, f_f 1/2000. -/
theorem open_sizer_formulas_witness :
    open_contract_num 1000 100 = ⌊(1000 : ℚ) / 100⌋ ∧ open_contract_num 1000 100 = 10 :=
  ⟨(open_sizer_formulas 1000 100 50000 (1/1000) (1/2000) (by norm_num) (by norm_num)).1,
   (open_sizer_formulas 1000 100 50000 (1/1000) (1/2000) (by norm_num) (by norm_num)).2.2.2.2⟩

/-- C7 counterexample: the claim that the closing and opening contract
counts differ for EVERY futures price other than 1 is false: at
p_f = 1001/1000 (amount 1000, m 100) both formulas give 10. -/
theorem close_formula_coincides_counterexample :
    (1001/1000 : ℚ) ≠ 1
    ∧ close_contract_num (1001/1000) 1000 100 = open_contract_num 1000 100 := by
  constructor
  · norm_num
  · norm_num [close_contract_num, open_contract_num, pyint]

/-- C7 amended: the closing contract count is `floor(p_f * amount / m)`,
not `floor(amount / m)`, and there EXISTS a futures price p_f different
from 1 at which the two formulas disagree (p_f = 2 gives 20 against 10);
they need not disagree at every p_f different from 1. -/
theorem close_sizer_formula (p_f amount m : ℚ)
    (h0 : 0 ≤ p_f * amount) (h1 : 0 < m) :
    close_contract_num p_f amount m = ⌊p_f * amount / m⌋
    ∧ ∃ q : ℚ, q ≠ 1 ∧ close_contract_num q 1000 100 ≠ open_contract_num 1000 100 := by
  refine ⟨pyint_eq_floor_of_nonneg _ (div_nonneg h0 h1.le), 2, by norm_num, ?_⟩
  norm_num [close_contract_num, open_contract_num, pyint]

/-- C7 witness: the closing formula evaluated at p_f 2, amount 1000, m 100. -/
theorem close_sizer_formula_witness :
    close_contract_num 2 1000 100 = ⌊(2 : ℚ) * 1000 / 100⌋ :=
  (close_sizer_formula 2 1000 100 (by norm_num) (by norm_num)).1

/-- Helper: when every attempt fails, the attempt loop makes all remaining
attempts, then emits one alert and exits iff `is_exit`. -/
theorem retry_run_all_fail {α : Type} (op : ℕ → Option α) (ie : Bool)
    (h : ∀ i, op i = none) :
    ∀ rem made, retry_run op ie made rem = ⟨none, made + rem, 1, ie⟩ := by
  intro rem
  induction rem with
  | zero => intro made; simp [retry_run]
  | succ n ih =>
    intro made
    rw [retry_run.eq_def]
    simp only [h made]
    rw [ih (made + 1)]
    simp [RetryOutcome.mk.injEq]
    omega

/-- Helper: when some attempt within range succeeds, no alert is emitted
and no exit happens. -/
theorem retry_run_success_no_alert {α : Type} (op : ℕ → Option α) (ie : Bool) :
    ∀ rem made i, made ≤ i → i < made + rem → (op i).isSome →
    (retry_run op ie made rem).alerts = 0 ∧ (retry_run op ie made rem).exited = false := by
  intro rem
  induction rem with
  | zero => intro made i h1 h2 _; omega
  | succ n ih =>
    intro made i h1 h2 h3
    rw [retry_run.eq_def]
    cases hop : op made with
    | some v => simp [hop]
    | none =>
      simp only [hop]
      have hne : made ≠ i := by
        intro he
        rw [← he, hop] at h3
        simp at h3
      exact ih (made + 1) i (by omega) (by omega) h3

/-- C2: an operation that fails on every attempt is invoked exactly
`max_trial` times and exactly one terminal alert is emitted; when some
attempt within the trial budget succeeds, no alert is emitted. -/
theorem retry_exhaustion_counts {α : Type} (max_trial : ℕ) (ie : Bool)
    (op : ℕ → Option α) :
    ((∀ i, op i = none) →
      (retry_wrapper max_trial ie op).attempts = max_trial
      ∧ (retry_wrapper max_trial ie op).alerts = 1)
    ∧ (∀ i, i < max_trial → (op i).isSome →
      (retry_wrapper max_trial ie op).alerts = 0) := by
  constructor
  · intro h
    rw [retry_wrapper, retry_run_all_fail op ie h max_trial 0]
    simp
  · intro i h1 h2
    exact (retry_run_success_no_alert op ie max_trial 0 i (Nat.zero_le i) (by omega) h2).1

/-- C2 witness: three trials of an always-failing operation give three
attempts and one alert; an operation succeeding at once gives no alert. -/
theorem retry_exhaustion_counts_witness :
    ((retry_wrapper 3 true (fun _ => (none : Option ℕ))).attempts = 3
      ∧ (retry_wrapper 3 true (fun _ => (none : Option ℕ))).alerts = 1)
    ∧ (retry_wrapper 3 true (fun _ => (some 5 : Option ℕ))).alerts = 0 :=
  ⟨(retry_exhaustion_counts 3 true (fun _ => none)).1 (fun _ => rfl),
   (retry_exhaustion_counts 3 true (fun _ => some 5)).2 0 (by omega) rfl⟩

/-- Helper: a spot order with an unrecognized direction raises on every
attempt, so the operation handed to `retry_wrapper` always fails. -/
theorem spot_order_op_bad_direction (direction : String)
    (hd1 : direction ≠ "long") (hd2 : direction ≠ "short") :
    ∀ i, spot_order_op direction i = none := by
  intro i
  simp [spot_order_op, spot_order_side, hd1, hd2, Except.toOption]

/-- C4 counterexample: a spot order whose direction is the unrecognized
string diagonal, routed through `retry_wrapper` with five trials, is
attempted five times, not surfaced immediately after a single attempt:
`except Exception` in the retry loop catches the `ValueError` and retries
it like any transient failure. -/
theorem config_error_retried_counterexample :
    (retry_wrapper 5 true (spot_order_op "diagonal")).attempts = 5
    ∧ (retry_wrapper 5 true (spot_order_op "diagonal")).attempts ≠ 1 := by
  have h := retry_run_all_fail (spot_order_op "diagonal") true
    (spot_order_op_bad_direction "diagonal" (by decide) (by decide)) 5 0
  rw [retry_wrapper] at *
  rw [h]
  exact ⟨rfl, by decide⟩

/-- C4 amended: a configuration error (an unrecognized spot direction, and
likewise any raising operation such as an unrecognized transfer account
pair) is NOT failed fast: the retry loop catches it and re-attempts the
operation the full `max_trial` times, then emits the single terminal alert
and exits iff `is_exit`; the dispatch itself does reject the bad values. -/
theorem config_error_is_retried (direction : String) (mt : ℕ) (ie : Bool)
    (hd1 : direction ≠ "long") (hd2 : direction ≠ "short") :
    (retry_wrapper mt ie (spot_order_op direction)).attempts = mt
    ∧ (retry_wrapper mt ie (spot_order_op direction)).alerts = 1
    ∧ (retry_wrapper mt ie (spot_order_op direction)).exited = ie
    ∧ (spot_order_side direction).isOk = false
    ∧ (transfer_type "spot" "spot").isOk = false := by
  have h := retry_run_all_fail (spot_order_op direction) ie
    (spot_order_op_bad_direction direction hd1 hd2) mt 0
  rw [retry_wrapper, h]
  refine ⟨by simp, rfl, rfl, ?_, rfl⟩
  simp [spot_order_side, hd1, hd2, Except.isOk, Except.toBool]

/-- C4 witness: the amended behavior at direction diagonal with four
trials. -/
theorem config_error_is_retried_witness :
    (retry_wrapper 4 true (spot_order_op "diagonal")).attempts = 4
    ∧ (retry_wrapper 4 true (spot_order_op "diagonal")).alerts = 1
    ∧ (retry_wrapper 4 true (spot_order_op "diagonal")).exited = true
    ∧ (spot_order_side "diagonal").isOk = false
    ∧ (transfer_type "spot" "spot").isOk = false :=
  config_error_is_retried "diagonal" 4 true (by decide) (by decide)

/-- C3 counterexample: in a concrete closing cycle (entry balances USDT 500
and coin 7, poll prices 100 and 101) no balance fetch happens anywhere
after the orders, and the transfer moves exactly the coin balance 7 that
was observed at `close_position_utils` entry, before any order was placed;
so the transferred amount is not a freshly re-fetched post-order balance. -/
theorem close_transfer_stale_balance_counterexample :
    ((close_utils_first_cycle sampleBot 500 7 100 101).drop 2).all
      (fun a => ! a.isFetchBalance) = true
    ∧ (close_utils_first_cycle sampleBot 500 7 100 101).getLast? =
        some (ArbAction.transfer "BTC" 7 "coin-margin" "spot") := by
  exact ⟨rfl, rfl⟩

/-- C3 amended: in the opening cycle the transfer amount is exactly the
balance returned by the `fetch_balance()` call made after both orders and
the settlement sleep (and no earlier balance fetch exists in the cycle);
in the closing cycle, however, there is no post-order balance fetch at all
and the transfer reuses the coin balance fetched once at
`close_position_utils` entry, before the orders. -/
theorem transfer_amount_provenance (b : BinanceArbBot)
    (spot_ask1 coin_bid1 post_balance usdt_balance coin_balance : ℚ) :
    (open_cycle b spot_ask1 coin_bid1 post_balance).drop 3 =
      [ArbAction.fetchBalance b.coin post_balance,
       ArbAction.transfer b.coin post_balance "spot" "coin-margin"]
    ∧ ((open_cycle b spot_ask1 coin_bid1 post_balance).take 3).all
        (fun a => ! a.isFetchBalance) = true
    ∧ (close_utils_first_cycle b usdt_balance coin_balance spot_ask1 coin_bid1).getLast? =
        some (ArbAction.transfer b.coin coin_balance "coin-margin" "spot")
    ∧ ((close_utils_first_cycle b usdt_balance coin_balance spot_ask1 coin_bid1).drop 2).all
        (fun a => ! a.isFetchBalance) = true := by
  exact ⟨rfl, rfl, rfl, rfl⟩

/-- Helper: the supervisor performs one restart per raised failure before
the first exit, none after. -/
theorem close_position_supervisor_replicate (n : ℕ) (rest : List UtilsOutcome) :
    close_position_supervisor (List.replicate n UtilsOutcome.raised ++ rest) =
      ((close_position_supervisor rest).1 + n, (close_position_supervisor rest).2) := by
  induction n with
  | zero => simp [close_position_supervisor]
  | succ k ih =>
    rw [List.replicate_succ, List.cons_append, close_position_supervisor, ih]
    simp
    omega

/-- C8: an ordinary exception inside one closing cycle yields exactly one
restart of the closing loop, leaves the termination status untouched (so a
lone failure does not end the process), each re-entered loop starts with
the execution counter at its entry value zero, and in general a script of
n failures followed by a clean exit produces exactly n restarts. -/
theorem close_supervisor_restart (outcomes : List UtilsOutcome) :
    close_position_supervisor (UtilsOutcome.raised :: outcomes) =
      ((close_position_supervisor outcomes).1 + 1, (close_position_supervisor outcomes).2)
    ∧ close_position_supervisor [UtilsOutcome.raised] = (1, false)
    ∧ close_utils_entry_counter = 0
    ∧ (∀ n : ℕ, close_position_supervisor
        (List.replicate n UtilsOutcome.raised ++ [UtilsOutcome.exited]) = (n, true)) := by
  refine ⟨rfl, rfl, rfl, ?_⟩
  intro n
  rw [close_position_supervisor_replicate]
  simp [close_position_supervisor]

/-- C10: the `SystemExit` raised by `exit()` is not an ordinary exception,
so the supervisor does not catch it: a script whose first outcome is an
exit ends the process with zero restarts; a retry exhaustion with
`is_exit` true (the default used inside the closing cycle) does call
`exit()`; and the maximum-execution check of the closing loop ends in
`exit()` as well, never in a restart. -/
theorem close_exit_terminates (outcomes : List UtilsOutcome)
    (mt num_maximum n : ℕ) (threshold r : ℚ) (rs : List ℚ)
    (op : ℕ → Option String) :
    close_position_supervisor (UtilsOutcome.exited :: outcomes) = (0, true)
    ∧ ((∀ i, op i = none) → (retry_wrapper mt true op).exited = true)
    ∧ (num_maximum ≤ close_loop_step threshold n r →
        close_loop_outcome threshold num_maximum n (r :: rs) = some UtilsOutcome.exited) := by
  refine ⟨rfl, ?_, ?_⟩
  · intro h
    rw [retry_wrapper, retry_run_all_fail op true h mt 0]
  · intro h
    rw [close_loop_outcome]
    simp only [h, if_pos]

/-- C10 witness: a two-trial exhaustion exits, and a closing loop with
maximum one execution exits right after its first executed cycle. -/
theorem close_exit_terminates_witness :
    (retry_wrapper 2 true (fun _ => (none : Option String))).exited = true
    ∧ close_loop_outcome 0 1 0 [0] = some UtilsOutcome.exited :=
  ⟨(close_exit_terminates [] 2 1 0 0 0 [] (fun _ => none)).2.1 (fun _ => rfl),
   (close_exit_terminates [] 2 1 0 0 0 [] (fun _ => none)).2.2
     (by norm_num [close_loop_step])⟩

/-- Helper: rewriting the timestamp entries leaves the value of every
other field unchanged. -/
theorem getField_stampMap_ne (t : ℤ) (key : String) (hk : key ≠ "timestamp") :
    ∀ params : List (String × PVal),
    getField (params.map (stampMap t)) key = getField params key := by
  intro params
  induction params with
  | nil => rfl
  | cons kv rest ih =>
    obtain ⟨a, v⟩ := kv
    by_cases h1 : a = "timestamp"
    · subst h1
      have h2 : ("timestamp" : String) ≠ key := fun he => hk he.symm
      simp [stampMap, getField, h2, ih]
    · by_cases h2 : a = key
      · subst h2
        simp [stampMap, getField, h1]
      · simp [stampMap, getField, h1, h2, ih]

/-- Helper: when a timestamp entry is present, rewriting sets it to the
fresh value. -/
theorem getField_stampMap_present (t : ℤ) :
    ∀ params : List (String × PVal),
    hasKey params "timestamp" = true →
    getField (params.map (stampMap t)) "timestamp" = some (PVal.int (t * 1000)) := by
  intro params
  induction params with
  | nil => intro h; simp [hasKey] at h
  | cons kv rest ih =>
    intro h
    obtain ⟨a, v⟩ := kv
    by_cases h1 : a = "timestamp"
    · subst h1
      simp [stampMap, getField]
    · have h2 : hasKey rest "timestamp" = true := by
        simp [hasKey] at h ⊢
        rcases h with h | h
        · exact absurd h.symm h1
        · exact h
      simp [stampMap, getField, h1]
      exact ih h2

/-- Helper: rewriting the timestamp entries keeps the key list intact. -/
theorem stampMap_keys (t : ℤ) (params : List (String × PVal)) :
    (params.map (stampMap t)).map Prod.fst = params.map Prod.fst := by
  rw [List.map_map]
  apply List.map_congr_left
  intro kv _
  by_cases h1 : kv.1 = "timestamp"
  · simp [stampMap, h1]
  · simp [stampMap, h1]

/-- Helper: `set_timestamp` keeps the key list intact. -/
theorem set_timestamp_keys (t : ℤ) (params : List (String × PVal)) :
    (set_timestamp t params).map Prod.fst = params.map Prod.fst := by
  rw [set_timestamp]
  split
  · exact stampMap_keys t params
  · rfl

/-- Helper: `set_timestamp` keeps key membership intact. -/
theorem set_timestamp_hasKey (t : ℤ) (params : List (String × PVal)) (k : String) :
    hasKey (set_timestamp t params) k = hasKey params k := by
  rw [hasKey, hasKey, set_timestamp_keys]

/-- Helper: the dictionary after `k` attempts still has the original keys. -/
theorem retry_params_after_keys (clock : ℕ → ℤ) (params : List (String × PVal)) :
    ∀ k, (retry_params_after clock params k).map Prod.fst = params.map Prod.fst := by
  intro k
  induction k with
  | zero => rfl
  | succ j ih => rw [retry_params_after, set_timestamp_keys, ih]

/-- C9: across all retry attempts, a dictionary without a `timestamp` key
is never mutated; in a dictionary with one, every non-timestamp field
keeps its value, and after the k+1-st attempt starts the timestamp field
holds `int(time.time()) * 1000` of that attempt. -/
theorem retry_params_mutation (clock : ℕ → ℤ) (params : List (String × PVal)) (k : ℕ) :
    (hasKey params "timestamp" = false → retry_params_after clock params k = params)
    ∧ (∀ key, key ≠ "timestamp" →
        getField (retry_params_after clock params k) key = getField params key)
    ∧ (hasKey params "timestamp" = true →
        getField (retry_params_after clock params (k + 1)) "timestamp"
          = some (PVal.int (clock k * 1000))) := by
  refine ⟨?_, ?_, ?_⟩
  · intro h
    induction k with
    | zero => rfl
    | succ j ih =>
      rw [retry_params_after, ih, set_timestamp, h]
      simp
  · intro key hk
    induction k with
    | zero => rfl
    | succ j ih =>
      rw [retry_params_after, ← ih, set_timestamp]
      split
      · exact getField_stampMap_ne _ key hk _
      · rfl
  · intro h
    have hk : hasKey (retry_params_after clock params k) "timestamp" = true := by
      rw [hasKey, retry_params_after_keys, ← hasKey, h]
    rw [retry_params_after, set_timestamp, if_pos hk]
    exact getField_stampMap_present _ _ hk

/-- C9 witness: three attempts leave a timestamp-free dictionary alone;
two attempts leave the symbol field of a timestamped dictionary unchanged
and set its timestamp to attempt time 1 in milliseconds. -/
theorem retry_params_mutation_witness :
    retry_params_after (fun j => (j : ℤ)) [("symbol", PVal.str "BTCUSD")] 3
        = [("symbol", PVal.str "BTCUSD")]
    ∧ getField (retry_params_after (fun j => (j : ℤ))
        [("symbol", PVal.str "BTCUSD"), ("timestamp", PVal.int 0)] 2) "symbol"
        = getField [("symbol", PVal.str "BTCUSD"), ("timestamp", PVal.int 0)] "symbol"
    ∧ getField (retry_params_after (fun j => (j : ℤ))
        [("symbol", PVal.str "BTCUSD"), ("timestamp", PVal.int 0)] 2) "timestamp"
        = some (PVal.int 1000) :=
  ⟨(retry_params_mutation (fun j => (j : ℤ)) [("symbol", PVal.str "BTCUSD")] 3).1 (by decide),
   (retry_params_mutation (fun j => (j : ℤ))
      [("symbol", PVal.str "BTCUSD"), ("timestamp", PVal.int 0)] 2).2.1 "symbol" (by decide),
   (retry_params_mutation (fun j => (j : ℤ))
      [("symbol", PVal.str "BTCUSD"), ("timestamp", PVal.int 0)] 1).2.2 (by decide)⟩
